import Mathlib

/-!
# Verification of `sync.py` (Odoo → WooCommerce stock synchronization)

A shallow embedding of the single source file `src/sync.py`.  External
effects (environment variables, the Odoo XML-RPC endpoint, the WooCommerce
HTTP endpoint, the mapping file) are modelled as explicit oracle values
passed to the embedded functions; a Python call that may raise is modelled
with `Except Unit` / `Option`, and `None`/falsy checks are modelled
explicitly.  All definitions are executable.
-/

namespace OdooWoo

/-- Python truthiness of an optional string (`os.getenv` result):
`None` and the empty string are falsy. -/
def truthyStr : Option String → Bool
  | none => false
  | some s => !(s == "")

/-- Python `a or b` on optional strings: `a` if truthy, else `b`.
Models `os.getenv("ODOO_USERNAME") or os.getenv("ODOO_USER")` (sync.py:25). -/
def pyOrStr (a b : Option String) : Option String :=
  if truthyStr a then a else b

/-- Python `str.strip()`: drop whitespace from both ends. -/
def pyStrip (s : String) : String :=
  ⟨((s.data.dropWhile Char.isWhitespace).reverse.dropWhile
      Char.isWhitespace).reverse⟩

/-- Decimal value of the tail of a digit run, with an accumulator:
further digits extend the value, an underscore is allowed only when
directly followed by a digit (Python digit grouping), anything else is
`none`. -/
def digitsAux (acc : Nat) : List Char → Option Nat
  | [] => some acc
  | '_' :: c :: rest =>
    if c.isDigit then digitsAux (acc * 10 + (c.toNat - 48)) rest else none
  | ['_'] => none
  | c :: rest =>
    if c.isDigit then digitsAux (acc * 10 + (c.toNat - 48)) rest else none

/-- Decimal value of a non-empty digit run that starts with a digit and
may use single underscores between digits; `none` otherwise. -/
def digitsVal : List Char → Option Nat
  | [] => none
  | c :: rest => if c.isDigit then digitsAux (c.toNat - 48) rest else none

/-- Python `int(s)` on a string: strip surrounding whitespace, accept an
optional `+`/`-` sign followed by decimal digits with optional single
underscores between them; raises `ValueError` (here: `none`) otherwise.
Restricted to ASCII digits: Python also accepts other Unicode decimal
digits, which no mapping or environment value in question uses. -/
def pyStrToInt (s : String) : Option Int :=
  match (pyStrip s).data with
  | '+' :: rest => (digitsVal rest).map fun n => (n : Int)
  | '-' :: rest => (digitsVal rest).map fun n => -(n : Int)
  | cs => (digitsVal cs).map fun n => (n : Int)

/-- Python `int(q)` on a number: truncation toward zero (sync.py:163). -/
def pyTrunc (q : ℚ) : ℤ :=
  if 0 ≤ q then ⌊q⌋ else ⌈q⌉

/-- The environment-variable configuration read in `__init__`
(sync.py:16-34).  Each field is the raw `os.getenv` result. -/
structure Config where
  wc_url : Option String
  wc_consumer_key : Option String
  wc_consumer_secret : Option String
  odoo_url : Option String
  odoo_db : Option String
  odoo_username_env : Option String
  odoo_user_env : Option String
  odoo_password : Option String
  odoo_location_id_env : Option String
deriving Repr, DecidableEq

/-- `self.odoo_username = os.getenv("ODOO_USERNAME") or os.getenv("ODOO_USER")`
(sync.py:25). -/
def Config.odoo_username (c : Config) : Option String :=
  pyOrStr c.odoo_username_env c.odoo_user_env

/-- `location_id_str = (os.getenv("ODOO_LOCATION_ID", "8") or "8").strip()`
then `int(...)` with fallback 8 on `ValueError` (sync.py:29-34). -/
def Config.odoo_location_id (c : Config) : ℤ :=
  let raw := match c.odoo_location_id_env with
    | none => "8"
    | some v => if v == "" then "8" else v
  match pyStrToInt (pyStrip raw) with
  | some n => n
  | none => 8

/-- The value that `common.version()` returns (sync.py:82), when it does
not raise.  `version_info.get("server_version", "unknown")` (sync.py:83)
requires a dict-like value; any other shape raises `AttributeError`. -/
inductive VersionVal where
  /-- A dict; `server_version` may be present or absent. -/
  | dict (server_version : Option String)
  /-- Not a dict-like value: `.get` raises `AttributeError`. -/
  | nonDict
deriving Repr, DecidableEq

/-- The remote Odoo side of `connect_odoo`: what `common.version()` and
`common.authenticate(...)` each return, or whether they raise
(`Except.error ()` models a raised transport exception).  A falsy
authentication result (`False`, `None`, `0`) is encoded as the integer 0. -/
structure OdooConnEnv where
  version_result : Except Unit VersionVal
  auth_result : Except Unit Int
deriving Repr

/-- The list built at sync.py:73-77: names of missing Odoo variables. -/
def missingOdooVars (c : Config) : List String :=
  (if truthyStr c.odoo_url then [] else ["ODOO_URL"]) ++
  (if truthyStr c.odoo_db then [] else ["ODOO_DB"]) ++
  (if truthyStr c.odoo_username then [] else ["ODOO_USERNAME/ODOO_USER"]) ++
  (if truthyStr c.odoo_password then [] else ["ODOO_PASSWORD"])

/-- `connect_odoo` (sync.py:66-98).  The whole body is inside
`try: ... except Exception: return False`, so the function always returns
a `Bool` and never propagates an exception:
* missing variables raise before any network call → `false`;
* `common.version()` raising → `false`;
* a non-dict `version_info` makes `.get` raise `AttributeError` → `false`;
* `authenticate` raising → `false`;
* a falsy uid raises `Exception("Invalid Odoo credentials")` → `false`;
* otherwise `true`. -/
def connect_odoo (c : Config) (env : OdooConnEnv) : Bool :=
  if missingOdooVars c ≠ [] then false
  else
    match env.version_result with
    | .error _ => false
    | .ok .nonDict => false
    | .ok (.dict _) =>
      match env.auth_result with
      | .error _ => false
      | .ok uid => if uid = 0 then false else true

end OdooWoo

namespace OdooWoo

/-- One record of the `search_read` reply (sync.py:106-111): the fields
requested are `id`, `name`, `barcode`, `qty_available`; `qty_available`
is read with `.get("qty_available", 0)` (sync.py:119) so it may be absent. -/
structure ProductRec where
  pid : Int
  name : String
  barcode : String
  qty_available : Option ℚ
deriving Repr, DecidableEq

/-- The Odoo data side: for each barcode, what `execute_kw ... search_read`
returns (a list of matching records) or `Except.error ()` when the call
raises. -/
def OdooOracle := String → Except Unit (List ProductRec)

/-- The dict returned by `get_product_stock_by_barcode` on success
(sync.py:115-120). -/
structure ProductInfo where
  pid : Int
  name : String
  barcode : String
  qty_available : ℚ
deriving Repr, DecidableEq

/-- `get_product_stock_by_barcode` (sync.py:100-127): query limited to 1,
`products[0]` on a non-empty reply, `None` on an empty reply (product not
found) and `None` when the call raises (caught at sync.py:125). -/
def get_product_stock_by_barcode (odoo : OdooOracle) (barcode : String) :
    Option ProductInfo :=
  match odoo barcode with
  | .error _ => none
  | .ok [] => none
  | .ok (p :: _) =>
    some { pid := p.pid, name := p.name, barcode := p.barcode,
           qty_available := p.qty_available.getD 0 }

/-- One triple of the Odoo search domain: (field, operator, value). -/
structure DomainTerm where
  field : String
  op : String
  value : String
deriving Repr, DecidableEq

/-- The `search_read` request built by `get_product_stock_by_barcode`
(sync.py:106-111).  `odoo_location_id` is a field of `self` and hence in
scope, so it is a parameter here; the request body never mentions it. -/
structure SearchReadCall where
  model : String
  method : String
  domain : List DomainTerm
  fields : List String
  limit : Nat
deriving Repr, DecidableEq

/-- The concrete call issued for a barcode (sync.py:106-111). -/
def stock_search_call (odoo_location_id : ℤ) (barcode : String) :
    SearchReadCall :=
  { model := "product.product", method := "search_read",
    domain := [{ field := "barcode", op := "=", value := barcode }],
    fields := ["id", "name", "barcode", "qty_available"], limit := 1 }

/-- One entry of `products_stock` (sync.py:141-145): the value stored under
a barcode after a successful fetch, with `wc_id` already converted by
`int(wc_id)`. -/
structure Fetched where
  barcode : String
  name : String
  qty : ℚ
  wc_id : Int
deriving Repr, DecidableEq

/-- `get_all_products_stock` (sync.py:129-150): iterate the mapping in
order; a fetch returning `None` is skipped and iteration continues; on a
successful fetch, `int(wc_id)` may raise `ValueError` (`Except.error ()`),
which aborts the loop and propagates to the caller.  The mapping is the
dict loaded from JSON, modelled as its ordered entry list with string
values. -/
def get_all_products_stock (odoo : OdooOracle) :
    List (String × String) → Except Unit (List Fetched)
  | [] => .ok []
  | (barcode, wc_id) :: rest =>
    match get_product_stock_by_barcode odoo barcode with
    | none => get_all_products_stock odoo rest
    | some p =>
      match pyStrToInt wc_id with
      | none => .error ()
      | some n =>
        match get_all_products_stock odoo rest with
        | .error e => .error e
        | .ok tail =>
          .ok ({ barcode := barcode, name := p.name,
                 qty := p.qty_available, wc_id := n } :: tail)

/-- The JSON body of the WooCommerce `PUT` request (sync.py:162-166). -/
structure WcPayload where
  stock_quantity : ℤ
  manage_stock : Bool
  stock_status : String
deriving Repr, DecidableEq

/-- The payload built by `update_woocommerce_stock` for a raw quantity
(sync.py:162-166): `int(stock_quantity)` truncates; the status rule
compares the raw, pre-truncation quantity with 0. -/
def wc_payload (stock_quantity : ℚ) : WcPayload :=
  { stock_quantity := pyTrunc stock_quantity,
    manage_stock := true,
    stock_status := if stock_quantity > 0 then "instock" else "outofstock" }

/-- What `requests.put` + `raise_for_status` does for one request
(sync.py:168-169): passes (2xx), raises `HTTPError` with a status code,
or raises some other transport exception. -/
inductive HttpOutcome where
  /-- 2xx: `raise_for_status()` does not raise. -/
  | ok
  /-- `raise_for_status()` raises `requests.exceptions.HTTPError`
  carrying this status code. -/
  | httpError (status : Nat)
  /-- any other exception from `requests.put` (timeout, DNS, reset …). -/
  | transportExn
deriving Repr, DecidableEq

/-- The WooCommerce side: the outcome of the `PUT` for a given product id
and payload.  Modelled as a function of the request. -/
def WcOracle := Int → WcPayload → HttpOutcome

/-- `update_woocommerce_stock` (sync.py:153-182): builds the payload,
issues the `PUT`, returns `True` on success; a 404 is logged as a warning,
any other `HTTPError` and any other exception as an error — all three
return `False`, nothing propagates. -/
def update_woocommerce_stock (wc : WcOracle) (product_id : Int)
    (stock_quantity : ℚ) : Bool :=
  match wc product_id (wc_payload stock_quantity) with
  | .ok => true
  | .httpError _ => false
  | .transportExn => false

/-- The observable result of `sync_stock` (sync.py:185-228): its boolean
return value, the final `total_updated`/`total_errors` counters, and the
ordered trace of `update_woocommerce_stock` calls it made
(product id, raw quantity, product name). -/
structure SyncOutcome where
  success : Bool
  total_updated : Nat
  total_errors : Nat
  pushes : List (Int × ℚ × String)
deriving Repr, DecidableEq

/-- The push loop of `sync_stock` (sync.py:205-215): one push per fetched
item, in order; `total_updated` counts `True` results, `total_errors`
counts `False` results. -/
def push_loop (wc : WcOracle) : List Fetched → Nat × Nat
  | [] => (0, 0)
  | p :: rest =>
    let (u, e) := push_loop wc rest
    if update_woocommerce_stock wc p.wc_id p.qty then (u + 1, e) else (u, e + 1)

/-- `sync_stock` (sync.py:185-228).  The body sits inside
`try: ... except Exception: return False`, so the `ValueError` that
`int(wc_id)` may raise inside `get_all_products_stock` is caught here and
becomes `return False`.  An empty `products_stock` returns `False`
(sync.py:195-197) before any push.  Otherwise every item is pushed in the
iteration order of `products_stock` and the function returns `True`
regardless of how many pushes failed (sync.py:222). -/
def sync_stock (odoo : OdooOracle) (wc : WcOracle)
    (mapping : List (String × String)) : SyncOutcome :=
  match get_all_products_stock odoo mapping with
  | .error _ => { success := false, total_updated := 0, total_errors := 0,
                  pushes := [] }
  | .ok [] => { success := false, total_updated := 0, total_errors := 0,
                pushes := [] }
  | .ok ps =>
    let (u, e) := push_loop wc ps
    { success := true, total_updated := u, total_errors := e,
      pushes := ps.map fun p => (p.wc_id, p.qty, p.name) }

/-- The on-disk `product_mapping.json` as seen by `load_product_mapping`:
absent, unreadable or malformed (`json.load` raises), or valid JSON of any
top-level shape — an object (entries in file order, values as strings), an
array, a string, or a scalar (number, boolean or null).  `json.load`
returns non-object values as-is, so they must be representable. -/
inductive MappingFile where
  | absent
  | malformed
  | jsonObject (entries : List (String × String))
  | jsonArray (n : Nat)
  | jsonString (s : String)
  | jsonScalar
deriving Repr, DecidableEq

/-- The Python value held by `self.product_mapping`: whatever `json.load`
returned.  A dict carries the ordered entries; an array only its length
(its elements are never inspected before the run fails); a string its
content; `scalar` stands for a number, boolean or `None`. -/
inductive PyMapping where
  | dict (entries : List (String × String))
  | list (n : Nat)
  | str (s : String)
  | scalar
deriving Repr, DecidableEq

/-- `load_product_mapping` (sync.py:49-63), faithfully: a missing file
gives an empty mapping (dict) with a warning; any exception while reading
or parsing is caught and gives an empty mapping; a successful `json.load`
result is returned as-is, whatever its top-level shape. -/
def load_product_mapping_value : MappingFile → PyMapping
  | .absent => .dict []
  | .malformed => .dict []
  | .jsonObject entries => .dict entries
  | .jsonArray n => .list n
  | .jsonString s => .str s
  | .jsonScalar => .scalar

/-- The entry list of the loaded mapping when it is a dict — the only
shape the fetch loop can iterate.  Statements phrased over entry lists
use this projection; the behavior on non-dict shapes (crash or caught
`AttributeError`) is stated over `load_product_mapping_value`,
`init_mapping` and `main_process` below. -/
def load_product_mapping (file : MappingFile) : List (String × String) :=
  match load_product_mapping_value file with
  | .dict entries => entries
  | _ => []

/-- Python `len(self.product_mapping)` as evaluated in the startup banner
(sync.py:46) and the fetch banner (sync.py:136): defined for a dict, a
list and a string; raises `TypeError` on a number, boolean or `None`. -/
def pyLen : PyMapping → Except Unit Nat
  | .dict entries => .ok entries.length
  | .list n => .ok n
  | .str s => .ok s.length
  | .scalar => .error ()

/-- `self.product_mapping.items()` (sync.py:138): only a dict has
`.items`; any other loaded value raises `AttributeError` there, inside
the `sync_stock` try block. -/
def items_result : PyMapping → Except Unit (List (String × String))
  | .dict entries => .ok entries
  | _ => .error ()

/-- `get_all_products_stock` over the actual loaded value: the `.items()`
call may itself raise (non-dict mapping) before any entry is fetched. -/
def get_all_products_stock_value (odoo : OdooOracle) (m : PyMapping) :
    Except Unit (List Fetched) :=
  match items_result m with
  | .error e => .error e
  | .ok entries => get_all_products_stock odoo entries

/-- `sync_stock` over the actual loaded value (sync.py:185-228): the
`AttributeError` from `.items()` on a non-dict mapping is caught by the
same blanket except as the `ValueError` from `int(wc_id)`, giving a
`False` return with no pushes. -/
def sync_stock_value (odoo : OdooOracle) (wc : WcOracle) (m : PyMapping) :
    SyncOutcome :=
  match get_all_products_stock_value odoo m with
  | .error _ => { success := false, total_updated := 0, total_errors := 0,
                  pushes := [] }
  | .ok [] => { success := false, total_updated := 0, total_errors := 0,
                pushes := [] }
  | .ok ps =>
    let (u, e) := push_loop wc ps
    { success := true, total_updated := u, total_errors := e,
      pushes := ps.map fun p => (p.wc_id, p.qty, p.name) }

/-- The observable fate of the process: `exit(code)` reached at
sync.py:249, or a crash — an uncaught exception escaping `__main__` (the
constructor at sync.py:247 runs outside every try block). -/
inductive ProcessOutcome where
  | exit (code : Nat)
  | crashed
deriving Repr, DecidableEq

/-- `__init__` (sync.py:16-46) as far as the mapping is concerned: load
the mapping, then evaluate `len(self.product_mapping)` for the startup
banner (sync.py:46).  A loaded value without `len()` raises `TypeError`
there, and no handler covers the constructor. -/
def init_mapping (file : MappingFile) : Except Unit PyMapping :=
  let m := load_product_mapping_value file
  match pyLen m with
  | .error e => .error e
  | .ok _ => .ok m

/-- `run` (sync.py:231-243): connection failure is terminal (`False`
without any fetch or push); otherwise the result is that of `sync_stock`.
Stated over the dict projection; `main_process` covers the general case. -/
def run (c : Config) (env : OdooConnEnv) (odoo : OdooOracle) (wc : WcOracle)
    (file : MappingFile) : Bool :=
  if connect_odoo c env then
    (sync_stock odoo wc (load_product_mapping file)).success
  else false

/-- `__main__` (sync.py:246-249): `exit(0 if success else 1)`, for runs
whose constructor survived (see `main_process`). -/
def main_exit_code (c : Config) (env : OdooConnEnv) (odoo : OdooOracle)
    (wc : WcOracle) (file : MappingFile) : Nat :=
  if run c env odoo wc file then 0 else 1

/-- `__main__` (sync.py:246-249) with the constructor included: an
exception escaping `__init__` crashes the process before `run` starts;
otherwise the process reaches `exit(0 if success else 1)`. -/
def main_process (c : Config) (env : OdooConnEnv) (odoo : OdooOracle)
    (wc : WcOracle) (file : MappingFile) : ProcessOutcome :=
  match init_mapping file with
  | .error _ => .crashed
  | .ok m =>
    if connect_odoo c env then
      if (sync_stock_value odoo wc m).success then .exit 0 else .exit 1
    else .exit 1

/-! ## Concrete fixtures used by witnesses and counterexamples -/

/-- A configuration with every variable set. -/
def goodConfig : Config :=
  { wc_url := some "https://shop.example",
    wc_consumer_key := some "ck",
    wc_consumer_secret := some "cs",
    odoo_url := some "https://odoo.example",
    odoo_db := some "proddb",
    odoo_username_env := some "admin",
    odoo_user_env := none,
    odoo_password := some "pw",
    odoo_location_id_env := none }

/-- A configuration with no variable set. -/
def emptyConfig : Config :=
  { wc_url := none, wc_consumer_key := none, wc_consumer_secret := none,
    odoo_url := none, odoo_db := none, odoo_username_env := none,
    odoo_user_env := none, odoo_password := none,
    odoo_location_id_env := none }

/-- A remote that answers the handshake normally (version dict present,
authentication returns uid 2). -/
def goodEnv : OdooConnEnv :=
  { version_result := .ok (.dict (some "16.0")), auth_result := .ok 2 }

/-- An Odoo oracle on which every `search_read` returns no match. -/
def emptyOdoo : OdooOracle := fun _ => .ok []

/-- An Odoo oracle with two products: barcode "A" (Widget, 12 units) and
barcode "B" (Gadget, 0 units); every other barcode has no match. -/
def twoOdoo : OdooOracle := fun b =>
  if b == "A" then .ok [{ pid := 1, name := "Widget", barcode := "A",
                          qty_available := some 12 }]
  else if b == "B" then .ok [{ pid := 2, name := "Gadget", barcode := "B",
                               qty_available := some 0 }]
  else .ok []

/-- A WooCommerce oracle that answers 404 for product id 55 and 2xx for
every other id. -/
def mixedWc : WcOracle := fun pid _ =>
  if pid = 55 then .httpError 404 else .ok

end OdooWoo



namespace OdooWoo

/-! ## Helper lemmas -/

/-- The push loop counts exactly the successful and the failed pushes. -/
theorem push_loop_spec (wc : WcOracle) (ps : List Fetched) :
    push_loop wc ps =
      ((ps.filter fun p => update_woocommerce_stock wc p.wc_id p.qty).length,
       (ps.filter fun p => !(update_woocommerce_stock wc p.wc_id p.qty)).length) := by
  induction ps with
  | nil => rfl
  | cons p rest ih =>
    cases hu : update_woocommerce_stock wc p.wc_id p.qty <;>
      simp [push_loop, ih, hu, List.filter_cons]

/-- A boolean predicate partitions a list into kept and dropped elements. -/
theorem filter_length_partition {α : Type} (p : α → Bool) (l : List α) :
    (l.filter p).length + (l.filter fun a => !(p a)).length = l.length := by
  induction l with
  | nil => rfl
  | cons a l ih => cases h : p a <;> simp [List.filter_cons, h] <;> omega

/-- What one mapping entry contributes to `products_stock` when no
exception interrupts the loop: `none` when the fetch is skipped, otherwise
the stored record. -/
def fetch_entry (odoo : OdooOracle) (e : String × String) : Option Fetched :=
  match get_product_stock_by_barcode odoo e.1 with
  | none => none
  | some p =>
    match pyStrToInt e.2 with
    | none => none
    | some n =>
      some { barcode := e.1, name := p.name, qty := p.qty_available,
             wc_id := n }

/-- A successful fetch-all pass returns exactly the entry-wise results, in
mapping order. -/
theorem get_all_ok_eq_filterMap (odoo : OdooOracle) :
    ∀ (mapping : List (String × String)) (ps : List Fetched),
      get_all_products_stock odoo mapping = .ok ps →
      ps = mapping.filterMap (fetch_entry odoo)
  | [], ps, h => by
    simp only [get_all_products_stock, Except.ok.injEq] at h
    simp [← h]
  | (k, v) :: rest, ps, h => by
    simp only [get_all_products_stock] at h
    cases hf : get_product_stock_by_barcode odoo k with
    | none =>
      rw [hf] at h
      simp only [List.filterMap_cons, fetch_entry, hf]
      exact get_all_ok_eq_filterMap odoo rest ps h
    | some p =>
      rw [hf] at h
      cases hp : pyStrToInt v with
      | none => rw [hp] at h; exact absurd h (by simp)
      | some n =>
        rw [hp] at h
        cases hr : get_all_products_stock odoo rest with
        | error e => rw [hr] at h; exact absurd h (by simp)
        | ok tail =>
          rw [hr] at h
          simp only [Except.ok.injEq] at h
          subst h
          simp only [List.filterMap_cons, fetch_entry, hf, hp]
          rw [← get_all_ok_eq_filterMap odoo rest tail hr]

/-- The stored record keeps the mapping key as its barcode. -/
theorem fetch_entry_barcode (odoo : OdooOracle) :
    ∀ (e : String × String) (f : Fetched),
      fetch_entry odoo e = some f → f.barcode = e.1 := by
  intro e f h
  unfold fetch_entry at h
  cases hf : get_product_stock_by_barcode odoo e.1 <;> rw [hf] at h
  · exact absurd h (by simp)
  · cases hp : pyStrToInt e.2 <;> rw [hp] at h
    · exact absurd h (by simp)
    · simp only [Option.some.injEq] at h
      rw [← h]

/-- Filtering-and-mapping a table with distinct keys through an
entry-to-record function that preserves the key yields records with
distinct barcodes. -/
theorem filterMap_barcode_nodup (g : String × String → Option Fetched)
    (hg : ∀ e f, g e = some f → f.barcode = e.1) :
    ∀ mapping : List (String × String),
      (mapping.map Prod.fst).Nodup →
      ((mapping.filterMap g).map Fetched.barcode).Nodup
  | [], _ => by simp
  | e :: rest, hnd => by
    rw [List.map_cons, List.nodup_cons] at hnd
    obtain ⟨hne, hrest⟩ := hnd
    cases hge : g e with
    | none =>
      simpa [List.filterMap_cons, hge] using
        filterMap_barcode_nodup g hg rest hrest
    | some f =>
      simp only [List.filterMap_cons, hge, List.map_cons, List.nodup_cons]
      refine ⟨?_, filterMap_barcode_nodup g hg rest hrest⟩
      intro hmem
      rw [List.mem_map] at hmem
      obtain ⟨f', hmem', hbar⟩ := hmem
      rw [List.mem_filterMap] at hmem'
      obtain ⟨a, hamem, hga⟩ := hmem'
      apply hne
      have h1 := hg e f hge
      have h2 := hg a f' hga
      have hkey : e.1 = a.1 := by rw [← h1, ← hbar, h2]
      rw [hkey]
      exact List.mem_map_of_mem Prod.fst hamem

end OdooWoo

namespace OdooWoo

/-! ## Claim theorems -/

/-- Claim C2: the claim states that the per-item read query is constrained
by the configured stock-location identifier.  The code parses and stores
the location identifier (default 8, warning-and-default on unparsable
input) but the `search_read` request it issues filters on the barcode
only and never mentions the location, so the quantity fetched is the
aggregate `qty_available`, identical for every configured location. -/
theorem stock_query_ignores_location :
    (∀ l l' : ℤ, ∀ b : String, stock_search_call l b = stock_search_call l' b) ∧
    (∀ l : ℤ, ∀ b : String,
      (stock_search_call l b).domain.map DomainTerm.field = ["barcode"]) ∧
    Config.odoo_location_id goodConfig = 8 ∧
    Config.odoo_location_id
      { goodConfig with odoo_location_id_env := some "abc" } = 8 ∧
    Config.odoo_location_id
      { goodConfig with odoo_location_id_env := some "12" } = 12 :=
  ⟨fun _ _ _ => rfl, fun _ _ => rfl, rfl, rfl, rfl⟩

/-- Claim C7: the push payload truncates the quantity toward zero (floor
for non-negative, ceiling for negative quantities, hence 7/2 becomes 3 and
not 4), always sets `manage_stock` to true, and derives `stock_status`
from the raw quantity by the strict rule: "instock" iff the quantity is
greater than 0, so 0 and -1 give "outofstock" and 5 gives "instock". -/
theorem payload_semantics :
    (∀ q : ℚ, (wc_payload q).manage_stock = true) ∧
    (∀ q : ℚ, (wc_payload q).stock_quantity = pyTrunc q) ∧
    (∀ q : ℚ, 0 ≤ q → (wc_payload q).stock_quantity = ⌊q⌋) ∧
    (∀ q : ℚ, q < 0 → (wc_payload q).stock_quantity = ⌈q⌉) ∧
    (∀ q : ℚ, 0 < q → (wc_payload q).stock_status = "instock") ∧
    (∀ q : ℚ, q ≤ 0 → (wc_payload q).stock_status = "outofstock") ∧
    (wc_payload (7/2)).stock_quantity = 3 ∧
    (wc_payload 0).stock_status = "outofstock" ∧
    (wc_payload (-1)).stock_status = "outofstock" ∧
    (wc_payload 5).stock_status = "instock" := by
  refine ⟨fun q => rfl, fun q => rfl, ?_, ?_, ?_, ?_, ?_, ?_, ?_, ?_⟩
  · intro q hq
    show pyTrunc q = ⌊q⌋
    rw [pyTrunc, if_pos hq]
  · intro q hq
    show pyTrunc q = ⌈q⌉
    rw [pyTrunc, if_neg (by exact not_le.mpr hq)]
  · intro q hq
    show (if q > 0 then "instock" else "outofstock") = "instock"
    rw [if_pos hq]
  · intro q hq
    show (if q > 0 then "instock" else "outofstock") = "outofstock"
    rw [if_neg (by exact not_lt.mpr hq)]
  · show pyTrunc (7/2) = 3
    rw [pyTrunc, if_pos (by norm_num), Int.floor_eq_iff]; norm_num
  · show (if (0:ℚ) > 0 then "instock" else "outofstock") = "outofstock"
    norm_num
  · show (if (-1:ℚ) > 0 then "instock" else "outofstock") = "outofstock"
    norm_num
  · show (if (5:ℚ) > 0 then "instock" else "outofstock") = "instock"
    norm_num

/-- Claim C7 witness: the hypothesis-bearing conjuncts applied at concrete
quantities. -/
theorem payload_semantics_witness :
    (wc_payload 2).stock_quantity = ⌊(2:ℚ)⌋ ∧
    (wc_payload (-1)).stock_quantity = ⌈(-1:ℚ)⌉ ∧
    (wc_payload 5).stock_status = "instock" ∧
    (wc_payload 0).stock_status = "outofstock" :=
  ⟨payload_semantics.2.2.1 2 (by norm_num),
   payload_semantics.2.2.2.1 (-1) (by norm_num),
   payload_semantics.2.2.2.2.1 5 (by norm_num),
   payload_semantics.2.2.2.2.2.1 0 (by norm_num)⟩

/-- Claim C10: for a fractional quantity strictly between 0 and 1 the
payload carries the truncated quantity 0 together with status "instock",
because the status rule is evaluated on the raw pre-truncation quantity
while the quantity field is truncated — the two fields disagree. -/
theorem fractional_payload_disagreement (q : ℚ) (h0 : 0 < q) (h1 : q < 1) :
    (wc_payload q).stock_quantity = 0 ∧
    (wc_payload q).stock_status = "instock" := by
  constructor
  · show pyTrunc q = 0
    rw [pyTrunc, if_pos h0.le]
    exact Int.floor_eq_zero_iff.mpr ⟨h0.le, h1⟩
  · show (if q > 0 then "instock" else "outofstock") = "instock"
    rw [if_pos h0]

/-- Claim C10 witness: the disagreement at quantity 1/2. -/
theorem fractional_payload_disagreement_witness :
    (wc_payload (1/2)).stock_quantity = 0 ∧
    (wc_payload (1/2)).stock_status = "instock" :=
  fractional_payload_disagreement (1/2) (by norm_num) (by norm_num)

end OdooWoo

namespace OdooWoo

/-- Claim C8: `connect_odoo` never propagates an exception — with any
missing credential it returns false regardless of (hence without
consulting) the remote, reporting exactly the missing variables; a falsy
authentication identifier gives false; a raised transport exception in
the version step or the authentication step gives false. -/
theorem connect_never_raises :
    (∀ c env env', missingOdooVars c ≠ [] →
        connect_odoo c env = false ∧
        connect_odoo c env = connect_odoo c env') ∧
    (∀ c env, env.auth_result = .ok 0 → connect_odoo c env = false) ∧
    (∀ c env, env.version_result = .error () → connect_odoo c env = false) ∧
    (∀ c env, env.auth_result = .error () → connect_odoo c env = false) ∧
    missingOdooVars emptyConfig =
      ["ODOO_URL", "ODOO_DB", "ODOO_USERNAME/ODOO_USER", "ODOO_PASSWORD"] := by
  refine ⟨?_, ?_, ?_, ?_, rfl⟩
  · intro c env env' h
    constructor <;> simp [connect_odoo, h]
  · intro c env h
    rcases env with ⟨vr, ar⟩
    simp only at h
    subst h
    rcases vr with e | v
    · simp [connect_odoo]
    · rcases v with sv | _ <;> simp [connect_odoo]
  · intro c env h
    rcases env with ⟨vr, ar⟩
    simp only at h
    subst h
    simp [connect_odoo]
  · intro c env h
    rcases env with ⟨vr, ar⟩
    simp only at h
    subst h
    rcases vr with e | v
    · simp [connect_odoo]
    · rcases v with sv | _ <;> simp [connect_odoo]

/-- Claim C8 witness: each failure mode at a concrete configuration and
remote. -/
theorem connect_never_raises_witness :
    connect_odoo emptyConfig goodEnv = false ∧
    connect_odoo goodConfig
      { version_result := .ok (.dict (some "16.0")), auth_result := .ok 0 } =
      false ∧
    connect_odoo goodConfig
      { version_result := .error (), auth_result := .ok 2 } = false ∧
    connect_odoo goodConfig
      { version_result := .ok (.dict (some "16.0")), auth_result := .error () } =
      false :=
  ⟨(connect_never_raises.1 emptyConfig goodEnv goodEnv (by decide)).1,
   connect_never_raises.2.1 goodConfig _ rfl,
   connect_never_raises.2.2.1 goodConfig _ rfl,
   connect_never_raises.2.2.2.1 goodConfig _ rfl⟩

/-- Claim C4 counterexample: with all four credentials present and an
authentication step that would return uid 2, a version result that is not
shaped as a metadata object makes `connect_odoo` return false — the
original claim predicted that connect still succeeds. -/
theorem nondict_version_claim_cex :
    missingOdooVars goodConfig = [] ∧
    connect_odoo goodConfig
      { version_result := .ok VersionVal.nonDict, auth_result := .ok 2 } =
      false :=
  ⟨rfl, rfl⟩

/-- Claim C4 (amended): a version result that is a metadata object lacking
the version field is tolerated (the code falls back to "unknown") and
`connect_odoo` proceeds to authentication and succeeds; but a version
result not shaped as a metadata object raises in the diagnostic step, is
caught, and turns `connect_odoo` into false. -/
theorem version_content_tolerance :
    (∀ c env sv uid, missingOdooVars c = [] →
        env.version_result = .ok (.dict sv) → env.auth_result = .ok uid →
        uid ≠ 0 → connect_odoo c env = true) ∧
    (∀ c env, env.version_result = .ok VersionVal.nonDict →
        connect_odoo c env = false) := by
  constructor
  · intro c env sv uid hm hv ha hu
    rcases env with ⟨vr, ar⟩
    simp only at hv ha
    subst hv; subst ha
    simp [connect_odoo, hm, hu]
  · intro c env hv
    rcases env with ⟨vr, ar⟩
    simp only at hv
    subst hv
    simp [connect_odoo]

/-- Claim C4 witness: a dict version result without the version field
still connects; a non-dict one does not. -/
theorem version_content_tolerance_witness :
    connect_odoo goodConfig
      { version_result := .ok (.dict none), auth_result := .ok 2 } = true ∧
    connect_odoo goodConfig
      { version_result := .ok VersionVal.nonDict, auth_result := .ok 2 } =
      false :=
  ⟨version_content_tolerance.1 goodConfig _ none 2 rfl rfl rfl (by decide),
   version_content_tolerance.2 goodConfig _ rfl⟩

end OdooWoo

namespace OdooWoo

/-- Claim C1 counterexample: with a connection that succeeds and a fetch
phase yielding zero records (empty mapping, file absent), the process
exits with code 1 — the original claim predicted overall success and exit
code 0. -/
theorem empty_fetch_claim_cex :
    connect_odoo goodConfig goodEnv = true ∧
    get_all_products_stock emptyOdoo
      (load_product_mapping MappingFile.absent) = .ok [] ∧
    main_exit_code goodConfig goodEnv emptyOdoo mixedWc
      MappingFile.absent = 1 :=
  ⟨rfl, rfl, rfl⟩

/-- Claim C1 (amended): for every run in which the Source connection
succeeds and the fetch phase over the mapping yields zero records,
`sync_stock` returns False with zero updates and zero pushes, and the
process exits with code 1, not 0 — the code treats an empty fetch result
as an overall failure. -/
theorem empty_fetch_reports_failure (c : Config) (env : OdooConnEnv)
    (odoo : OdooOracle) (wc : WcOracle) (file : MappingFile)
    (hconn : connect_odoo c env = true)
    (hfetch : get_all_products_stock odoo (load_product_mapping file) =
      .ok []) :
    sync_stock odoo wc (load_product_mapping file) =
      { success := false, total_updated := 0, total_errors := 0,
        pushes := [] } ∧
    main_exit_code c env odoo wc file = 1 := by
  have hs : sync_stock odoo wc (load_product_mapping file) =
      { success := false, total_updated := 0, total_errors := 0,
        pushes := [] } := by
    simp [sync_stock, hfetch]
  refine ⟨hs, ?_⟩
  simp [main_exit_code, run, hconn, hs]

/-- Claim C1 witness: the amended behavior at a concrete connecting
configuration with an absent mapping file. -/
theorem empty_fetch_reports_failure_witness :
    sync_stock emptyOdoo mixedWc
      (load_product_mapping MappingFile.absent) =
      { success := false, total_updated := 0, total_errors := 0,
        pushes := [] } ∧
    main_exit_code goodConfig goodEnv emptyOdoo mixedWc
      MappingFile.absent = 1 :=
  empty_fetch_reports_failure goodConfig goodEnv emptyOdoo mixedWc
    MappingFile.absent rfl rfl

/-- Claim C3 counterexample: both halves of the original claim fail
concretely.  A well-formed JSON mapping whose sink id does not parse as
an integer ("xyz"), for a product the Source does find, makes the run
exit with code 1; and a mapping file holding valid non-object JSON with
a scalar top level (a number, boolean or null) crashes the process with
an uncaught `TypeError` at the startup banner (sync.py:46). -/
theorem mapping_data_claim_cex :
    load_product_mapping_value (MappingFile.jsonObject [("A", "xyz")]) =
      .dict [("A", "xyz")] ∧
    connect_odoo goodConfig goodEnv = true ∧
    main_process goodConfig goodEnv twoOdoo mixedWc
      (MappingFile.jsonObject [("A", "xyz")]) = .exit 1 ∧
    main_process goodConfig goodEnv twoOdoo mixedWc
      MappingFile.jsonScalar = .crashed :=
  ⟨rfl, rfl, rfl, rfl⟩

/-- Claim C3 (amended): only JSON-parse failures and an absent file are
handled non-terminally by the loader, degrading to an empty mapping —
and even that path ends as an overall failure with exit code 1, not a
non-failure.  Other malformed mapping content is not contained: a
non-integer sink id raises `ValueError` in the fetch loop, caught by
`sync_stock` (no crash, but exit code 1); valid JSON whose top level is
an array or a string survives the constructor but makes `.items()` raise
`AttributeError` in the fetch phase, caught by `sync_stock` (exit code
1); and valid JSON whose top level is a number, boolean or null crashes
the process with an uncaught `TypeError` in `__init__` (sync.py:46),
before any synchronization starts. -/
theorem mapping_fault_containment :
    load_product_mapping_value MappingFile.malformed = .dict [] ∧
    load_product_mapping_value MappingFile.absent = .dict [] ∧
    (∀ c env odoo wc,
        main_process c env odoo wc MappingFile.malformed = .exit 1) ∧
    (∀ (odoo : OdooOracle) (wc : WcOracle) entries,
        get_all_products_stock odoo entries = .error () →
        sync_stock odoo wc entries =
          { success := false, total_updated := 0, total_errors := 0,
            pushes := [] }) ∧
    (∀ c env (odoo : OdooOracle) (wc : WcOracle) entries,
        get_all_products_stock odoo entries = .error () →
        main_process c env odoo wc (MappingFile.jsonObject entries) =
          .exit 1) ∧
    (∀ c env odoo wc n,
        main_process c env odoo wc (MappingFile.jsonArray n) = .exit 1) ∧
    (∀ c env odoo wc s,
        main_process c env odoo wc (MappingFile.jsonString s) = .exit 1) ∧
    (∀ c env odoo wc,
        main_process c env odoo wc MappingFile.jsonScalar = .crashed) := by
  refine ⟨rfl, rfl, ?_, ?_, ?_, ?_, ?_, fun c env odoo wc => rfl⟩
  · intro c env odoo wc
    cases hc : connect_odoo c env <;>
      simp [main_process, init_mapping, load_product_mapping_value, pyLen,
        sync_stock_value, get_all_products_stock_value, items_result,
        get_all_products_stock, hc]
  · intro odoo wc entries h
    simp [sync_stock, h]
  · intro c env odoo wc entries hget
    cases hc : connect_odoo c env <;>
      simp [main_process, init_mapping, load_product_mapping_value, pyLen,
        sync_stock_value, get_all_products_stock_value, items_result,
        hget, hc]
  · intro c env odoo wc n
    cases hc : connect_odoo c env <;>
      simp [main_process, init_mapping, load_product_mapping_value, pyLen,
        sync_stock_value, get_all_products_stock_value, items_result, hc]
  · intro c env odoo wc s
    cases hc : connect_odoo c env <;>
      simp [main_process, init_mapping, load_product_mapping_value, pyLen,
        sync_stock_value, get_all_products_stock_value, items_result, hc]

/-- Claim C3 witness: the caught, non-crashing failure path at a concrete
mapping with an unparsable sink id. -/
theorem mapping_fault_containment_witness :
    sync_stock twoOdoo mixedWc [("A", "xyz")] =
      { success := false, total_updated := 0, total_errors := 0,
        pushes := [] } ∧
    main_process goodConfig goodEnv twoOdoo mixedWc
      (MappingFile.jsonObject [("A", "xyz")]) = .exit 1 :=
  ⟨mapping_fault_containment.2.2.2.1 twoOdoo mixedWc [("A", "xyz")] rfl,
   mapping_fault_containment.2.2.2.2.1 goodConfig goodEnv twoOdoo mixedWc
      [("A", "xyz")] rfl⟩

end OdooWoo

namespace OdooWoo

/-- Claim C5: once the connection succeeds and at least one record was
fetched, the run is an overall success with exit code 0 no matter how many
per-item pushes fail; `total_errors` counts exactly the failed pushes,
`total_updated` the successful ones, every fetched item is accounted for
(the loop never stops early), and an HTTP error status or a transport
failure is recorded as a False outcome of the push, never an exception. -/
theorem push_failures_not_fatal (c : Config) (env : OdooConnEnv)
    (odoo : OdooOracle) (wc : WcOracle) (file : MappingFile)
    (ps : List Fetched)
    (hconn : connect_odoo c env = true)
    (hfetch : get_all_products_stock odoo (load_product_mapping file) =
      .ok ps)
    (hne : ps ≠ []) :
    main_exit_code c env odoo wc file = 0 ∧
    (sync_stock odoo wc (load_product_mapping file)).success = true ∧
    (sync_stock odoo wc (load_product_mapping file)).total_updated =
      (ps.filter fun p => update_woocommerce_stock wc p.wc_id p.qty).length ∧
    (sync_stock odoo wc (load_product_mapping file)).total_errors =
      (ps.filter fun p =>
        !(update_woocommerce_stock wc p.wc_id p.qty)).length ∧
    (sync_stock odoo wc (load_product_mapping file)).total_updated +
      (sync_stock odoo wc (load_product_mapping file)).total_errors =
      ps.length ∧
    (∀ pid q s, wc pid (wc_payload q) = .httpError s →
        update_woocommerce_stock wc pid q = false) ∧
    (∀ pid q, wc pid (wc_payload q) = .transportExn →
        update_woocommerce_stock wc pid q = false) := by
  obtain ⟨p, rest, rfl⟩ : ∃ p rest, ps = p :: rest := by
    cases ps with
    | nil => exact absurd rfl hne
    | cons p rest => exact ⟨p, rest, rfl⟩
  have hs : sync_stock odoo wc (load_product_mapping file) =
      { success := true,
        total_updated := ((p :: rest).filter fun x =>
          update_woocommerce_stock wc x.wc_id x.qty).length,
        total_errors := ((p :: rest).filter fun x =>
          !(update_woocommerce_stock wc x.wc_id x.qty)).length,
        pushes := (p :: rest).map fun x => (x.wc_id, x.qty, x.name) } := by
    simp [sync_stock, hfetch, push_loop_spec]
  refine ⟨?_, by rw [hs], by rw [hs], by rw [hs], ?_, ?_, ?_⟩
  · simp [main_exit_code, run, hconn, hs]
  · rw [hs]
    exact filter_length_partition _ _
  · intro pid q s h
    simp [update_woocommerce_stock, h]
  · intro pid q h
    simp [update_woocommerce_stock, h]

/-- Claim C5 witness: two fetched items, one pushed successfully and one
rejected with HTTP 404 — exit code 0, one update, one error. -/
theorem push_failures_not_fatal_witness :
    main_exit_code goodConfig goodEnv twoOdoo mixedWc
      (MappingFile.jsonObject [("A", "55"), ("B", "66")]) = 0 ∧
    (sync_stock twoOdoo mixedWc [("A", "55"), ("B", "66")]).total_updated =
      1 ∧
    (sync_stock twoOdoo mixedWc [("A", "55"), ("B", "66")]).total_errors =
      1 := by
  have h := push_failures_not_fatal goodConfig goodEnv twoOdoo mixedWc
    (MappingFile.jsonObject [("A", "55"), ("B", "66")])
    [{ barcode := "A", name := "Widget", qty := 12, wc_id := 55 },
     { barcode := "B", name := "Gadget", qty := 0, wc_id := 66 }]
    rfl rfl (by simp)
  exact ⟨h.1, h.2.2.1.trans rfl, h.2.2.2.1.trans rfl⟩

/-- Claim C6: a mapping entry whose Source fetch resolves to not-found or
to a caught transport exception is omitted from the fetch-all output,
iteration continues with the remaining keys, and the whole synchronization
(counters included, so in particular `total_errors`) behaves exactly as if
the entry were not in the mapping — skipped entries never count toward
`total_errors`, which only push-phase failures increment. -/
theorem fetch_miss_skipped (odoo : OdooOracle) (wc : WcOracle)
    (k v : String) (rest : List (String × String))
    (hmiss : get_product_stock_by_barcode odoo k = none) :
    get_all_products_stock odoo ((k, v) :: rest) =
      get_all_products_stock odoo rest ∧
    sync_stock odoo wc ((k, v) :: rest) = sync_stock odoo wc rest := by
  have h1 : get_all_products_stock odoo ((k, v) :: rest) =
      get_all_products_stock odoo rest := by
    simp [get_all_products_stock, hmiss]
  exact ⟨h1, by rw [sync_stock, sync_stock, h1]⟩

/-- Claim C6 witness: barcode "K" is unknown to the Source, so the entry
is dropped and the run over the remaining mapping is unchanged. -/
theorem fetch_miss_skipped_witness :
    get_all_products_stock twoOdoo [("K", "7"), ("B", "66")] =
      get_all_products_stock twoOdoo [("B", "66")] ∧
    sync_stock twoOdoo mixedWc [("K", "7"), ("B", "66")] =
      sync_stock twoOdoo mixedWc [("B", "66")] :=
  fetch_miss_skipped twoOdoo mixedWc "K" "7" [("B", "66")] rfl

/-- Claim C9: the push phase processes exactly the fetched records in the
order they were fetched; the fetched sequence is the mapping filtered
entry-wise in insertion order; and when the mapping keys are distinct (as
JSON object keys are) every record carries a distinct barcode, so each
item is fetched and pushed at most once — no reordering and no retries. -/
theorem push_order_matches_mapping (odoo : OdooOracle) (wc : WcOracle)
    (mapping : List (String × String)) (ps : List Fetched)
    (hfetch : get_all_products_stock odoo mapping = .ok ps)
    (hne : ps ≠ [])
    (hnd : (mapping.map Prod.fst).Nodup) :
    (sync_stock odoo wc mapping).pushes =
      ps.map (fun p => (p.wc_id, p.qty, p.name)) ∧
    ps = mapping.filterMap (fetch_entry odoo) ∧
    (ps.map Fetched.barcode).Nodup := by
  have h2 := get_all_ok_eq_filterMap odoo mapping ps hfetch
  refine ⟨?_, h2, ?_⟩
  · cases ps with
    | nil => exact absurd rfl hne
    | cons p rest => simp [sync_stock, hfetch, push_loop_spec]
  · rw [h2]
    exact filterMap_barcode_nodup _ (fetch_entry_barcode odoo) mapping hnd

/-- Claim C9 witness: a two-entry mapping is fetched and pushed in file
order, each barcode once. -/
theorem push_order_matches_mapping_witness :
    (sync_stock twoOdoo mixedWc [("A", "55"), ("B", "66")]).pushes =
      [(55, (12 : ℚ), "Widget"), (66, (0 : ℚ), "Gadget")] := by
  have h := push_order_matches_mapping twoOdoo mixedWc
    [("A", "55"), ("B", "66")]
    [{ barcode := "A", name := "Widget", qty := 12, wc_id := 55 },
     { barcode := "B", name := "Gadget", qty := 0, wc_id := 66 }]
    rfl (by simp) (by decide)
  exact h.1.trans rfl

end OdooWoo
